import Mathlib

/-!
Verification of the Veriff KYC server's upstream client, credential pool,
signer and session aggregator, shallowly embedded from the TypeScript
sources (`VeriffAPI`, `veriff-utils.ts`).
-/

namespace VeriffKyc

/-! ## JavaScript value model

A small model of the JSON-ish values flowing through the client: `undefined`
models JavaScript `undefined`, `null` models `null`; objects preserve the
field order the transport produced. -/

inductive JsValue where
  | undefined
  | null
  | bool (b : Bool)
  | num (n : Int)
  | str (s : String)
  | arr (elems : List JsValue)
  | obj (fields : List (String × JsValue))

/-- JavaScript truthiness of a value (used by `if (response)` checks and by
the axios-error condition `error.response.status && error.response.data`). -/
def truthy : JsValue → Bool
  | .undefined => false
  | .null => false
  | .bool b => b
  | .num n => n != 0
  | .str s => s != ""
  | .arr _ => true
  | .obj _ => true

/-- First field with the given name (JavaScript objects have unique keys;
a missing field reads as `undefined`). -/
def lookupField : List (String × JsValue) → String → JsValue
  | [], _ => .undefined
  | (k, v) :: rest, name => if k = name then v else lookupField rest name

/-- Outcome of evaluating a JavaScript expression: either a value, or a
thrown exception propagating out of the evaluated code. -/
inductive JsOutcome (α : Type) where
  | value (v : α)
  | thrown

/-- Property access `base.name`: throws a TypeError when the base is
`null`/`undefined`, reads the field of an object, and yields `undefined`
on other primitives. -/
def getMember : JsValue → String → JsOutcome JsValue
  | .null, _ => .thrown
  | .undefined, _ => .thrown
  | .obj fs, name => .value (lookupField fs name)
  | _, _ => .value .undefined

/-- Sequencing of JavaScript evaluation: a thrown exception propagates. -/
def JsOutcome.bind : JsOutcome JsValue → (JsValue → JsOutcome JsValue) → JsOutcome JsValue
  | .thrown, _ => .thrown
  | .value v, f => f v

/-! ## Credential pool (`KeyPair`, constructor, `getCurrentKeyPair`,
`switchToNextKeyPair`) -/

/-- `KeyPair` from `src/types/index.ts`. -/
structure KeyPair where
  apiKey : String
  sharedSecretKey : String
deriving DecidableEq

/-- The mutable state of a `VeriffAPI` instance: the ordered credential
pool and the active cursor `currentIndex`. -/
structure VeriffAPIState where
  apiKeyPairs : List KeyPair
  currentIndex : Nat

/-- The constructor sets `this.currentIndex = 0`. -/
def initialIndex : Nat := 0

/-- `getCurrentKeyPair`: `this.apiKeyPairs[this.currentIndex]`; an
out-of-range index would read as `undefined`, modelled as `none`. -/
def getCurrentKeyPair (pairs : List KeyPair) (idx : Nat) : Option KeyPair :=
  pairs.get? idx

/-- `switchToNextKeyPair`:
`this.currentIndex = (this.currentIndex + 1) % this.apiKeyPairs.length`
(it also re-runs `init()`, which only rebuilds the axios defaults from the
new current pair and does not touch the cursor). -/
def switchToNextKeyPair (st : VeriffAPIState) : VeriffAPIState :=
  { st with currentIndex := (st.currentIndex + 1) % st.apiKeyPairs.length }

/-! ## Upstream transport model -/

/-- An axios response: `data` plus a headers map. -/
structure AxiosResponse where
  data : JsValue
  headers : List (String × String)

/-- The information `performRequest`'s catch branch inspects on a failed
call: `isAxiosError(error)`, whether `error.response` exists, and the
response's `status` and `data` (status `0` models a falsy status). -/
structure UpstreamError where
  isAxiosError : Bool
  hasResponse : Bool
  status : Nat
  body : JsValue

/-- The source condition
`isAxiosError(error) && error.response && error.response.status && error.response.data`
deciding whether the failure counts as an HTTP error response (rotate and
retry) rather than a transport-level fault. -/
def isRetryableError (e : UpstreamError) : Bool :=
  e.isAxiosError && e.hasResponse && (e.status != 0) && truthy e.body

/-- One attempt of the underlying `this.veriffAPI.request(...)` call:
either a response, or an error. -/
inductive CallOutcome where
  | ok (response : AxiosResponse)
  | error (e : UpstreamError)

/-- The environment: what the upstream does for a given url, attempt
number (requests already issued for this logical call) and the credential
pair the attempt is authenticated with. -/
def Oracle : Type := String → Nat → KeyPair → CallOutcome

/-- `responseType` of `performRequest`. -/
inductive RespType where
  | json
  | stream

/-- A full axios response encoded as a JavaScript value (what
`performRequest` returns for `responseType === 'stream'`). -/
def encodeResponse (r : AxiosResponse) : JsValue :=
  .obj [("data", r.data), ("headers", .obj (r.headers.map fun kv => (kv.1, .str kv.2)))]

/-- The body of `performRequest`'s `while (attemptsLeft > 0)` loop.

`fuel` bounds the number of loop iterations the model is willing to
unfold; `none` means the loop had not returned after `fuel` iterations
(so `∀ fuel, ... = none` is divergence of the source loop). The returned
triple is (returned value, final `currentIndex`, ghost trace of the
`currentIndex` used by each request actually issued — its length is the
number of attempts). `JsValue.null` is the `return null` of exhaustion,
`JsValue.undefined` the implicit `undefined` return when the loop is never
entered. With the invariant `idx < pairs.length` the `getD` lookup is
exactly `this.apiKeyPairs[this.currentIndex]`. -/
def performRequestAux (oracle : Oracle) (pairs : List KeyPair) (url : String) (rt : RespType) :
    Nat → Nat → Nat → List Nat → Option (JsValue × Nat × List Nat)
  | 0, _, _, _ => none
  | fuel + 1, attemptsLeft, idx, used =>
    if attemptsLeft = 0 then
      some (.undefined, idx, used)
    else
      let used' := used ++ [idx]
      match oracle url used.length (pairs.getD idx ⟨"", ""⟩) with
      | .ok r =>
        match rt with
        | .stream => some (encodeResponse r, idx, used')
        | .json => some (r.data, idx, used')
      | .error e =>
        if isRetryableError e then
          -- `switchToNextKeyPair(); attemptsLeft--; if (attemptsLeft === 0) return null;`
          let idx' := (idx + 1) % pairs.length
          if attemptsLeft - 1 = 0 then some (.null, idx', used')
          else performRequestAux oracle pairs url rt fuel (attemptsLeft - 1) idx' used'
        else
          -- transport-level fault: only logs; neither rotates, decrements
          -- attemptsLeft, nor returns — the loop runs again.
          performRequestAux oracle pairs url rt fuel attemptsLeft idx used'

/-- `performRequest(url, responseType, method)`: starts the loop with
`attemptsLeft = this.apiKeyPairs.length` at the current cursor. -/
def performRequest (oracle : Oracle) (pairs : List KeyPair) (url : String) (rt : RespType)
    (idx fuel : Nat) : Option (JsValue × Nat × List Nat) :=
  performRequestAux oracle pairs url rt fuel pairs.length idx []

/-! ## Public upstream-client operations

Each operation builds its fixed resource path and dispatches through
`performRequest`; each returns (outcome, final `currentIndex`, ghost
attempt trace), with the outer `Option` again meaning fuel exhaustion.
Field accesses on the result are modelled with `getMember`, so a
dereference of a `null` result is `JsOutcome.thrown`. -/

/-- Percent-encoding of `encodeURIComponent` (unreserved characters kept,
everything else UTF-8 percent-encoded). -/
def hexDigitUpper (n : Nat) : Char :=
  Char.ofNat (if n < 10 then 48 + n else 55 + n)

/-- UTF-8 encoding of one character, as byte values. -/
def utf8EncodeCharNat (c : Char) : List Nat :=
  let n := c.toNat
  if n < 128 then [n]
  else if n < 2048 then [192 + n / 64, 128 + n % 64]
  else if n < 65536 then [224 + n / 4096, 128 + (n / 64) % 64, 128 + n % 64]
  else [240 + n / 262144, 128 + (n / 4096) % 64, 128 + (n / 64) % 64, 128 + n % 64]

/-- UTF-8 bytes of a string. -/
def utf8Bytes (s : String) : List Nat :=
  s.data.foldr (fun c acc => utf8EncodeCharNat c ++ acc) []

def isUnreservedURIChar (c : Char) : Bool :=
  c.isAlphanum || c = '-' || c = '_' || c = '.' || c = '!' || c = '~' ||
    c = '*' || c.toNat = 39 || c = '(' || c = ')'

def encodeURIComponent (s : String) : String :=
  ⟨s.data.foldr
    (fun c acc =>
      (if isUnreservedURIChar c then [c]
       else (utf8EncodeCharNat c).foldr
         (fun b a2 => '%' :: hexDigitUpper (b / 16) :: hexDigitUpper (b % 16) :: a2) []) ++ acc)
    []⟩

/-- `getSessionDecision`: returns `performRequest` directly. -/
def getSessionDecision (oracle : Oracle) (pairs : List KeyPair) (sessionId : String)
    (idx fuel : Nat) : Option (JsOutcome JsValue × Nat × List Nat) :=
  (performRequest oracle pairs ("/sessions/" ++ sessionId ++ "/decision") .json idx fuel).map
    fun r => (.value r.1, r.2)

/-- `getAttemptsForSession`: dereferences `response.verifications`. -/
def getAttemptsForSession (oracle : Oracle) (pairs : List KeyPair) (sessionId : String)
    (idx fuel : Nat) : Option (JsOutcome JsValue × Nat × List Nat) :=
  (performRequest oracle pairs ("/sessions/" ++ sessionId ++ "/attempts") .json idx fuel).map
    fun r => (getMember r.1 "verifications", r.2)

/-- `getPersonForSession`: dereferences `response.person`. -/
def getPersonForSession (oracle : Oracle) (pairs : List KeyPair) (sessionId : String)
    (idx fuel : Nat) : Option (JsOutcome JsValue × Nat × List Nat) :=
  (performRequest oracle pairs ("/sessions/" ++ sessionId ++ "/person") .json idx fuel).map
    fun r => (getMember r.1 "person", r.2)

def getMediaForSession (oracle : Oracle) (pairs : List KeyPair) (sessionId : String)
    (idx fuel : Nat) : Option (JsOutcome JsValue × Nat × List Nat) :=
  (performRequest oracle pairs ("/sessions/" ++ sessionId ++ "/media") .json idx fuel).map
    fun r => (.value r.1, r.2)

def getWatchlistScreeningForSession (oracle : Oracle) (pairs : List KeyPair) (sessionId : String)
    (idx fuel : Nat) : Option (JsOutcome JsValue × Nat × List Nat) :=
  (performRequest oracle pairs ("/sessions/" ++ sessionId ++ "/watchlist-screening") .json
      idx fuel).map
    fun r => (.value r.1, r.2)

def getMediaForAttempt (oracle : Oracle) (pairs : List KeyPair) (attemptId : String)
    (idx fuel : Nat) : Option (JsOutcome JsValue × Nat × List Nat) :=
  (performRequest oracle pairs ("/attempts/" ++ attemptId ++ "/media") .json idx fuel).map
    fun r => (.value r.1, r.2)

def getINEDataForSession (oracle : Oracle) (pairs : List KeyPair) (sessionId version : String)
    (idx fuel : Nat) : Option (JsOutcome JsValue × Nat × List Nat) :=
  (performRequest oracle pairs
      ("/sessions/" ++ sessionId ++ "/decision/ine-registry?version=" ++
        encodeURIComponent version) .json idx fuel).map
    fun r => (.value r.1, r.2)

def getCurpRegistryData (oracle : Oracle) (pairs : List KeyPair) (sessionId version : String)
    (idx fuel : Nat) : Option (JsOutcome JsValue × Nat × List Nat) :=
  (performRequest oracle pairs
      ("/sessions/" ++ sessionId ++ "/decision/curp-registry?version=" ++
        encodeURIComponent version) .json idx fuel).map
    fun r => (.value r.1, r.2)

def getAddressMedia (oracle : Oracle) (pairs : List KeyPair) (addressId : String)
    (idx fuel : Nat) : Option (JsOutcome JsValue × Nat × List Nat) :=
  (performRequest oracle pairs ("/address/" ++ addressId ++ "/media") .json idx fuel).map
    fun r => (.value r.1, r.2)

/-- `{ media: response.data, contentType: response.headers['content-type'] }`
behind an `if (response)` truthiness guard; a falsy response yields the
implicit `undefined` return. -/
def mediaStreamResult (response : JsValue) : JsOutcome JsValue :=
  if truthy response then
    (getMember response "data").bind fun media =>
      (getMember response "headers").bind fun hs =>
        (getMember hs "content-type").bind fun ct =>
          .value (.obj [("media", media), ("contentType", ct)])
  else .value .undefined

/-- `getMediaById`: a `'stream'` request. -/
def getMediaById (oracle : Oracle) (pairs : List KeyPair) (mediaId : String)
    (idx fuel : Nat) : Option (JsOutcome JsValue × Nat × List Nat) :=
  (performRequest oracle pairs ("/media/" ++ mediaId) .stream idx fuel).map
    fun r => (mediaStreamResult r.1, r.2)

/-- `getAddressMediaById`: a `'stream'` request. -/
def getAddressMediaById (oracle : Oracle) (pairs : List KeyPair) (mediaId : String)
    (idx fuel : Nat) : Option (JsOutcome JsValue × Nat × List Nat) :=
  (performRequest oracle pairs ("/address-media/" ++ mediaId) .stream idx fuel).map
    fun r => (mediaStreamResult r.1, r.2)

/-! ## Session aggregator (`getRelavantSessionData`, `extractValue`) -/

/-- One element of the array `Promise.allSettled` resolves with. -/
inductive SettledResult where
  | fulfilled (value : JsValue)
  | rejected (reason : JsValue)

/-- `Promise.allSettled` wrapping of one sub-call: a thrown rejection is
captured, never propagated. -/
def settle : JsOutcome JsValue → SettledResult
  | .value v => .fulfilled v
  | .thrown => .rejected .undefined

/-- `extractValue`:
`result.status === 'fulfilled' ? result.value : null`. -/
def extractValue : SettledResult → JsValue
  | .fulfilled v => v
  | .rejected _ => .null

/-- The fixed-shape record `getRelavantSessionData` returns. -/
structure SessionRecord where
  sessionDecision : JsValue
  personInfo : JsValue
  mediaList : JsValue
  watchlistScreening : JsValue
  ineData : JsValue
  curpData : JsValue
  attempts : JsValue

/-- `getRelavantSessionData`, over the outcomes of its seven concurrent
sub-calls (decision, person, media list, watchlist, INE, CURP, attempts,
in the source's dispatch order): `Promise.allSettled` settles every one,
`data.map(extractValue)` replaces failures by `null`, and the array is
destructured positionally into the returned record. -/
def getRelavantSessionData (d p m w i c a : JsOutcome JsValue) : SessionRecord :=
  let data := [settle d, settle p, settle m, settle w, settle i, settle c, settle a]
  let vals := data.map extractValue
  { sessionDecision := vals.getD 0 .undefined
    personInfo := vals.getD 1 .undefined
    mediaList := vals.getD 2 .undefined
    watchlistScreening := vals.getD 3 .undefined
    ineData := vals.getD 4 .undefined
    curpData := vals.getD 5 .undefined
    attempts := vals.getD 6 .undefined }

/-! ## SHA-256 and HMAC-SHA256 (model of Node `crypto.createHmac('sha256', ...)`)

FIPS 180-4 SHA-256 over byte lists, with 32-bit words as `Nat` reduced
modulo `2 ^ 32`, and RFC 2104 HMAC on top of it. -/

/-- `2 ^ 32`. -/
def w32 : Nat := 4294967296

/-- Right rotation of a 32-bit word. -/
def rotr32 (n x : Nat) : Nat :=
  ((x >>> n) ||| (x <<< (32 - n))) % w32

def shaCh (x y z : Nat) : Nat := (x &&& y) ^^^ ((x ^^^ 4294967295) &&& z)

def shaMaj (x y z : Nat) : Nat := (x &&& y) ^^^ (x &&& z) ^^^ (y &&& z)

def bigSigma0 (x : Nat) : Nat := rotr32 2 x ^^^ rotr32 13 x ^^^ rotr32 22 x

def bigSigma1 (x : Nat) : Nat := rotr32 6 x ^^^ rotr32 11 x ^^^ rotr32 25 x

def smallSigma0 (x : Nat) : Nat := rotr32 7 x ^^^ rotr32 18 x ^^^ (x >>> 3)

def smallSigma1 (x : Nat) : Nat := rotr32 17 x ^^^ rotr32 19 x ^^^ (x >>> 10)

/-- The 64 SHA-256 round constants, in decimal. -/
def sha256K : List Nat :=
  [1116352408, 1899447441, 3049323471, 3921009573, 961987163, 1508970993,
   2453635748, 2870763221, 3624381080, 310598401, 607225278, 1426881987,
   1925078388, 2162078206, 2614888103, 3248222580, 3835390401, 4022224774,
   264347078, 604807628, 770255983, 1249150122, 1555081692, 1996064986,
   2554220882, 2821834349, 2952996808, 3210313671, 3336571891, 3584528711,
   113926993, 338241895, 666307205, 773529912, 1294757372, 1396182291,
   1695183700, 1986661051, 2177026350, 2456956037, 2730485921, 2820302411,
   3259730800, 3345764771, 3516065817, 3600352804, 4094571909, 275423344,
   430227734, 506948616, 659060556, 883997877, 958139571, 1322822218,
   1537002063, 1747873779, 1955562222, 2024104815, 2227730452, 2361852424,
   2428436474, 2756734187, 3204031479, 3329325298]

/-- The SHA-256 initial hash value, in decimal. -/
def sha256H0 : List Nat :=
  [1779033703, 3144134277, 1013904242, 2773480762, 1359893119, 2600822924,
   528734635, 1541459225]

/-- Merkle–Damgård padding: append `0x80`, zero bytes, and the 64-bit
big-endian bit length, to a multiple of 64 bytes. -/
def sha256Pad (msg : List Nat) : List Nat :=
  let len := msg.length
  let zeros := (64 - (len + 9) % 64) % 64
  let bitLen := len * 8
  msg ++ 0x80 :: List.replicate zeros 0 ++
    [bitLen / 72057594037927936 % 256, bitLen / 281474976710656 % 256,
     bitLen / 1099511627776 % 256, bitLen / 4294967296 % 256,
     bitLen / 16777216 % 256, bitLen / 65536 % 256,
     bitLen / 256 % 256, bitLen % 256]

/-- Group bytes into big-endian 32-bit words. -/
def bytesToWords : List Nat → List Nat
  | a :: b :: c :: d :: rest => (((a * 256 + b) * 256 + c) * 256 + d) :: bytesToWords rest
  | _ => []

/-- Split a word list into 16-word blocks (`fuel` bounds the recursion by
the list length). -/
def toBlocksAux : Nat → List Nat → List (List Nat)
  | 0, _ => []
  | _, [] => []
  | fuel + 1, ws => ws.take 16 :: toBlocksAux fuel (ws.drop 16)

def toBlocks (ws : List Nat) : List (List Nat) := toBlocksAux ws.length ws

/-- One extension step of the message schedule. -/
def scheduleStep (w : List Nat) : List Nat :=
  w ++ [(smallSigma1 (w.getD (w.length - 2) 0) + w.getD (w.length - 7) 0 +
         smallSigma0 (w.getD (w.length - 15) 0) + w.getD (w.length - 16) 0) % w32]

def extendSchedule : Nat → List Nat → List Nat
  | 0, w => w
  | n + 1, w => extendSchedule n (scheduleStep w)

/-- One round of the compression function on the working variables
`[a, b, c, d, e, f, g, h]`. -/
def sha256Round (st : List Nat) (kw : Nat × Nat) : List Nat :=
  match st with
  | [a, b, c, d, e, f, g, h] =>
    let t1 := (h + bigSigma1 e + shaCh e f g + kw.1 + kw.2) % w32
    let t2 := (bigSigma0 a + shaMaj a b c) % w32
    [(t1 + t2) % w32, a, b, c, (d + t1) % w32, e, f, g]
  | _ => st

/-- Compress one 16-word block into the running hash. -/
def sha256Compress (h : List Nat) (block : List Nat) : List Nat :=
  let w := extendSchedule 48 block
  let st := (sha256K.zip w).foldl sha256Round h
  (h.zip st).map fun p => (p.1 + p.2) % w32

/-- SHA-256 digest (32 bytes) of a byte list. -/
def sha256Bytes (msg : List Nat) : List Nat :=
  let blocks := toBlocks (bytesToWords (sha256Pad msg))
  let h := blocks.foldl sha256Compress sha256H0
  h.foldr (fun word acc =>
    word / 16777216 % 256 :: word / 65536 % 256 :: word / 256 % 256 :: word % 256 :: acc) []

/-- RFC 2104 HMAC-SHA256 over byte lists. -/
def hmacSHA256 (key msg : List Nat) : List Nat :=
  let k0 := if key.length > 64 then sha256Bytes key else key
  let k64 := k0 ++ List.replicate (64 - k0.length) 0
  let ipad := k64.map fun b => b ^^^ 0x36
  let opad := k64.map fun b => b ^^^ 0x5c
  sha256Bytes (opad ++ sha256Bytes (ipad ++ msg))

def hexDigitLower (n : Nat) : Char :=
  Char.ofNat (if n < 10 then 48 + n else 87 + n)

/-- Lowercase hex rendering of bytes (Node's `.digest('hex')`). -/
def bytesToHex (bs : List Nat) : String :=
  ⟨bs.foldr (fun b acc => hexDigitLower (b / 16) :: hexDigitLower (b % 16) :: acc) []⟩

/-- `crypto.createHmac('sha256', sharedSecretKey).update(payload).digest('hex')`
with a string key and byte-list payload. -/
def hmacSHA256Hex (key : String) (msg : List Nat) : String :=
  bytesToHex (hmacSHA256 (utf8Bytes key) msg)

/-! ## JSON.stringify and webhook payload canonicalization -/

/-- JSON string escaping of one character. -/
def escapeJsonChar (c : Char) : List Char :=
  if c = '"' then ['\\', '"']
  else if c = '\\' then ['\\', '\\']
  else if c = Char.ofNat 8 then ['\\', 'b']
  else if c = Char.ofNat 9 then ['\\', 't']
  else if c = Char.ofNat 10 then ['\\', 'n']
  else if c = Char.ofNat 12 then ['\\', 'f']
  else if c = Char.ofNat 13 then ['\\', 'r']
  else if c.toNat < 32 then
    ['\\', 'u', '0', '0', hexDigitLower (c.toNat / 16), hexDigitLower (c.toNat % 16)]
  else [c]

/-- A JSON string literal with its surrounding quotes. -/
def jsonQuote (s : String) : String :=
  ⟨'"' :: s.data.foldr (fun c acc => escapeJsonChar c ++ acc) ['"']⟩

mutual

/-- `JSON.stringify`: compact (no pretty-printing), preserving field
order; `undefined` values are not serializable (`none`), and are dropped
inside objects and rendered `null` inside arrays. -/
def jsonStringify : JsValue → Option String
  | .undefined => none
  | .null => some "null"
  | .bool b => some (cond b "true" "false")
  | .num n => some (toString n)
  | .str s => some (jsonQuote s)
  | .arr es => some ("[" ++ String.intercalate "," (stringifyElems es) ++ "]")
  | .obj fs => some ("\x7b" ++ String.intercalate "," (stringifyFields fs) ++ "\x7d")

def stringifyElems : List JsValue → List String
  | [] => []
  | e :: rest => ((jsonStringify e).getD "null") :: stringifyElems rest

def stringifyFields : List (String × JsValue) → List String
  | [] => []
  | (k, v) :: rest =>
    match jsonStringify v with
    | none => stringifyFields rest
    | some sv => (jsonQuote k ++ ":" ++ sv) :: stringifyFields rest

end

/-- `JSON.stringify` of a structured (object) payload. -/
def stringifyObjTop (fields : List (String × JsValue)) : String :=
  "\x7b" ++ String.intercalate "," (stringifyFields fields) ++ "\x7d"

/-- `JSON.stringify` of a Node `Buffer`: `Buffer.prototype.toJSON` renders
it as an object of the form type-Buffer/data-array. -/
def bufferToJson (bytes : List Nat) : String :=
  "\x7b\"type\":\"Buffer\",\"data\":[" ++
    String.intercalate "," (bytes.map fun b => toString b) ++ "]\x7d"

/-- A webhook payload as it can arrive at `isSignatureValid`: a structured
object, a JSON text string, or raw bytes (a Node `Buffer`). -/
inductive WebhookPayload where
  | objPayload (fields : List (String × JsValue))
  | strPayload (s : String)
  | bufPayload (bytes : List Nat)

/-- The canonicalization prefix of `isSignatureValid`:
`if (typeof payload === 'object') payload = JSON.stringify(payload);`
then `if (!Buffer.isBuffer(payload)) payload = Buffer.from(payload, 'utf8');`.
A structured object is stringified then UTF-8 encoded; a string is UTF-8
encoded as-is; a `Buffer` has `typeof === 'object'` too, so it is
JSON-stringified (via `Buffer.prototype.toJSON`) and those characters are
UTF-8 encoded — the original bytes are not used directly. -/
def canonicalizePayload : WebhookPayload → List Nat
  | .objPayload fs => utf8Bytes (stringifyObjTop fs)
  | .strPayload s => utf8Bytes s
  | .bufPayload bs => utf8Bytes (bufferToJson bs)

/-- `isSignatureValid({ signature, payload })`: recompute the digest with
every configured credential pair's shared secret and accept on the first
match; the active cursor is never consulted. -/
def isSignatureValid (st : VeriffAPIState) (signature : String)
    (payload : WebhookPayload) : Bool :=
  let bytes := canonicalizePayload payload
  st.apiKeyPairs.any fun kp => hmacSHA256Hex kp.sharedSecretKey bytes == signature

/-! ## Failure-mode environments and concrete instances -/

/-- Every attempt fails with an HTTP error response (status and body
present), for every url, attempt and credential. -/
def alwaysHttpError (oracle : Oracle) : Prop :=
  ∀ u k kp, ∃ e, oracle u k kp = .error e ∧ isRetryableError e = true

/-- Every attempt fails with a failure that is not an HTTP error response
(a transport-level fault). -/
def alwaysTransportFault (oracle : Oracle) : Prop :=
  ∀ u k kp, ∃ e, oracle u k kp = .error e ∧ isRetryableError e = false

/-- The cursor positions a fully exhausted rotation visits, starting at
`idx` in a pool of size `n`. -/
def rotationTrace (idx n : Nat) : List Nat :=
  (List.range n).map fun k => (idx + k) % n

def kpA : KeyPair := ⟨"pk1", "sec1"⟩

def kpB : KeyPair := ⟨"pk2", "sec2"⟩

/-- An axios error carrying an HTTP 404 response with a body. -/
def err404 : UpstreamError := ⟨true, true, 404, .str "Not Found"⟩

/-- An axios error carrying an HTTP 401 response with a body. -/
def err401 : UpstreamError := ⟨true, true, 401, .str "Unauthorized"⟩

/-- A transport-level fault: an axios error with no response object. -/
def transportErr : UpstreamError := ⟨true, false, 0, .undefined⟩

/-- An upstream that answers every request with an HTTP 404 error. -/
def oracle404 : Oracle := fun _ _ _ => .error err404

/-- An upstream whose transport faults on every attempt. -/
def transportOracle : Oracle := fun _ _ _ => .error transportErr

/-- An upstream whose transport faults on the first attempt and succeeds
from the second attempt on. -/
def transientFaultOracle : Oracle := fun _ k _ =>
  if k = 0 then .error transportErr else .ok ⟨.str "ok", []⟩

/-- The decision payload of the end-to-end scenario. -/
def decisionValue : JsValue :=
  .obj [("verification", .obj [("id", .str "sess-1"), ("code", .num 9001)])]

/-- An upstream that rejects credential `k1` with HTTP 401 and fulfills
the session-decision fetch under any other credential. -/
def oracle401k1 : Oracle := fun _ _ kp =>
  if kp.apiKey = "k1" then .error err401 else .ok ⟨decisionValue, []⟩

def keyPair1 : KeyPair := ⟨"k1", "s1"⟩

def keyPair2 : KeyPair := ⟨"k2", "s2"⟩

/-! ## Helper lemmas -/

/-- Under an upstream failing with HTTP errors everywhere, the request
loop rotates through `attemptsLeft` consecutive cursor positions and
returns `null`. -/
theorem performRequestAux_exhaust {oracle : Oracle} {pairs : List KeyPair} {url : String}
    {rt : RespType} (hfail : alwaysHttpError oracle) :
    ∀ (fuel aLeft idx : Nat) (used : List Nat), 0 < aLeft → aLeft ≤ fuel →
      idx < pairs.length →
      performRequestAux oracle pairs url rt fuel aLeft idx used =
        some (.null, (idx + aLeft) % pairs.length,
          used ++ (List.range aLeft).map fun k => (idx + k) % pairs.length) := by
  intro fuel
  induction fuel with
  | zero => intro aLeft idx used h1 h2 h3; omega
  | succ n ih =>
    intro aLeft idx used h1 h2 h3
    obtain ⟨aL, rfl⟩ : ∃ aL, aLeft = aL + 1 := ⟨aLeft - 1, by omega⟩
    obtain ⟨e, he, hre⟩ := hfail url used.length (pairs.getD idx ⟨"", ""⟩)
    rw [performRequestAux, if_neg (by omega), he]
    simp only [hre, if_true, Nat.add_sub_cancel]
    cases aL with
    | zero =>
      simp only [if_pos rfl]
      simp [List.range_succ, Nat.mod_eq_of_lt h3]
    | succ m =>
      rw [if_neg (by omega)]
      have hlt : (idx + 1) % pairs.length < pairs.length := Nat.mod_lt _ (by omega)
      rw [ih (m + 1) ((idx + 1) % pairs.length) (used ++ [idx]) (by omega) (by omega) hlt]
      have hidx2 : ((idx + 1) % pairs.length + (m + 1)) % pairs.length =
          (idx + (m + 1 + 1)) % pairs.length := by
        have harith : idx + 1 + (m + 1) = idx + (m + 1 + 1) := by omega
        rw [Nat.mod_add_mod, harith]
      have hshift :
          (List.range (m + 1)).map (fun k => ((idx + 1) % pairs.length + k) % pairs.length) =
            (List.range (m + 1)).map fun k => (idx + (k + 1)) % pairs.length := by
        refine List.map_congr_left fun k _ => ?_
        have harith : idx + 1 + k = idx + (k + 1) := by omega
        rw [Nat.mod_add_mod, harith]
      have hexp : (List.range (m + 1 + 1)).map (fun k => (idx + k) % pairs.length) =
          idx :: (List.range (m + 1)).map fun k => (idx + (k + 1)) % pairs.length := by
        rw [List.range_succ_eq_map, List.map_cons, List.map_map]
        simp only [Nat.add_zero, Nat.mod_eq_of_lt h3]
        rfl
      have htr : used ++ [idx] ++
            (List.range (m + 1)).map (fun k => ((idx + 1) % pairs.length + k) % pairs.length) =
          used ++ (List.range (m + 1 + 1)).map fun k => (idx + k) % pairs.length := by
        rw [hshift, List.append_assoc, hexp]
        rfl
      rw [hidx2, htr]

/-- Under a transport-faulting upstream, the request loop never returns:
no amount of fuel suffices. -/
theorem performRequestAux_transport_diverges {oracle : Oracle} {pairs : List KeyPair}
    {url : String} {rt : RespType} (hfault : alwaysTransportFault oracle) :
    ∀ (fuel aLeft idx : Nat) (used : List Nat), 0 < aLeft →
      performRequestAux oracle pairs url rt fuel aLeft idx used = none := by
  intro fuel
  induction fuel with
  | zero => intro aLeft idx used h1; rfl
  | succ n ih =>
    intro aLeft idx used h1
    obtain ⟨e, he, hre⟩ := hfault url used.length (pairs.getD idx ⟨"", ""⟩)
    rw [performRequestAux, if_neg (by omega), he]
    simp only [hre, if_false, Bool.false_eq_true]
    exact ih aLeft idx (used ++ [idx]) h1

/-- Whatever the upstream does, the loop only ever returns an index below
the pool size (given it starts below it). -/
theorem performRequestAux_index_lt {oracle : Oracle} {pairs : List KeyPair} {url : String}
    {rt : RespType} :
    ∀ (fuel aLeft idx : Nat) (used : List Nat) (v : JsValue) (fIdx : Nat) (tr : List Nat),
      0 < pairs.length → idx < pairs.length →
      performRequestAux oracle pairs url rt fuel aLeft idx used = some (v, fIdx, tr) →
      fIdx < pairs.length := by
  intro fuel
  induction fuel with
  | zero => intro aLeft idx used v fIdx tr hN hidx h; exact absurd h (by simp [performRequestAux])
  | succ n ih =>
    intro aLeft idx used v fIdx tr hN hidx h
    rw [performRequestAux] at h
    by_cases haL : aLeft = 0
    · rw [if_pos haL] at h
      simp only [Option.some.injEq, Prod.mk.injEq] at h
      obtain ⟨-, h4, -⟩ := h
      omega
    · rw [if_neg haL] at h
      simp only [] at h
      cases hor : oracle url used.length (pairs.getD idx ⟨"", ""⟩) with
      | ok r =>
        rw [hor] at h
        cases rt with
        | stream =>
          simp only [Option.some.injEq, Prod.mk.injEq] at h
          obtain ⟨-, h4, -⟩ := h
          omega
        | json =>
          simp only [Option.some.injEq, Prod.mk.injEq] at h
          obtain ⟨-, h4, -⟩ := h
          omega
      | error e =>
        rw [hor] at h
        simp only [] at h
        by_cases hre : isRetryableError e = true
        · rw [if_pos hre] at h
          by_cases hz : aLeft - 1 = 0
          · rw [if_pos hz] at h
            simp only [Option.some.injEq, Prod.mk.injEq] at h
            obtain ⟨-, h4, -⟩ := h
            have := Nat.mod_lt (idx + 1) (show 0 < pairs.length by omega)
            omega
          · rw [if_neg hz] at h
            exact ih _ _ _ _ _ _ hN (Nat.mod_lt _ (by omega)) h
        · rw [if_neg hre] at h
          exact ih _ _ _ _ _ _ hN hidx h

/-- The cursor positions of a fully exhausted rotation are pairwise
distinct. -/
theorem rotationTrace_nodup (idx n : Nat) : (rotationTrace idx n).Nodup := by
  refine List.Nodup.map_on ?_ (List.nodup_range _)
  intro x hx y hy hxy
  rw [List.mem_range] at hx hy
  have h1 : idx + x ≡ idx + y [MOD n] := hxy
  have h2 : x ≡ y [MOD n] := Nat.ModEq.add_left_cancel' idx h1
  have h3 : x % n = y % n := h2
  rw [Nat.mod_eq_of_lt hx, Nat.mod_eq_of_lt hy] at h3
  exact h3

/-- Under an upstream failing with HTTP errors everywhere, a call with
enough fuel returns `null`, restores the cursor, and its attempt trace is
the full rotation cycle. -/
theorem performRequest_exhaust {oracle : Oracle} {pairs : List KeyPair}
    (hfail : alwaysHttpError oracle) (url : String) (rt : RespType) {idx fuel : Nat}
    (h1 : 0 < pairs.length) (h2 : idx < pairs.length) (h3 : pairs.length ≤ fuel) :
    performRequest oracle pairs url rt idx fuel =
      some (.null, idx, rotationTrace idx pairs.length) := by
  rw [performRequest, performRequestAux_exhaust hfail fuel pairs.length idx [] h1 h3 h2,
    Nat.add_mod_right, Nat.mod_eq_of_lt h2, List.nil_append, rotationTrace]

/-- `k` rotations advance the cursor by `k` positions modulo the pool
size, leaving the pool itself untouched. -/
theorem switchToNextKeyPair_iterate :
    ∀ (k : Nat) (st : VeriffAPIState), st.currentIndex < st.apiKeyPairs.length →
      switchToNextKeyPair^[k] st =
        { st with currentIndex := (st.currentIndex + k) % st.apiKeyPairs.length } := by
  intro k
  induction k with
  | zero =>
    intro st h
    simp [Nat.mod_eq_of_lt h]
  | succ m ih =>
    intro st h
    rw [Function.iterate_succ_apply]
    have hlen : (switchToNextKeyPair st).apiKeyPairs = st.apiKeyPairs := rfl
    have hlt : (switchToNextKeyPair st).currentIndex < (switchToNextKeyPair st).apiKeyPairs.length := by
      show (st.currentIndex + 1) % st.apiKeyPairs.length < st.apiKeyPairs.length
      exact Nat.mod_lt _ (by omega)
    rw [ih (switchToNextKeyPair st) hlt]
    show ({ st with currentIndex := ((st.currentIndex + 1) % st.apiKeyPairs.length + m) % st.apiKeyPairs.length } : VeriffAPIState) = _
    congr 1
    rw [Nat.mod_add_mod]
    congr 1
    omega

/-! ## Claim theorems -/

/-- C1: the claim says a failure that is not an HTTP error response makes
exactly one attempt, does not rotate, and yields a failure outcome
immediately. The code instead loops: its `else` branch neither decrements
`attemptsLeft` nor returns, so under a persistent transport fault
`performRequest` never returns for any fuel, and under a transient
transport fault it silently re-attempts (two attempts, then success)
instead of failing after one. It does not rotate, as claimed. -/
theorem claim1_transport_fault_retries_instead_of_failing :
    (∀ fuel, performRequest transportOracle [kpA] "/sessions/s1/decision" .json 0 fuel = none) ∧
    performRequest transientFaultOracle [kpA] "/sessions/s1/decision" .json 0 5 =
      some (.str "ok", 0, [0, 0]) := by
  constructor
  · intro fuel
    exact performRequestAux_transport_diverges
      (fun u k kp => ⟨transportErr, rfl, rfl⟩) fuel _ 0 [] (by decide)
  · rfl

/-- C3: when every credential fails with an HTTP error response, the call
makes exactly `N` attempts — one per distinct cursor position of the full
rotation cycle — then terminates with the `null` failure result; there is
no `N + 1`-th attempt. -/
theorem claim3_exhaustion_attempts_each_credential_once (oracle : Oracle)
    (pairs : List KeyPair) (url : String) (rt : RespType) (idx fuel : Nat)
    (hfail : alwaysHttpError oracle) (h1 : 0 < pairs.length) (h2 : idx < pairs.length)
    (h3 : pairs.length ≤ fuel) :
    performRequest oracle pairs url rt idx fuel =
      some (.null, idx, rotationTrace idx pairs.length) ∧
    (rotationTrace idx pairs.length).length = pairs.length ∧
    (rotationTrace idx pairs.length).Nodup := by
  refine ⟨performRequest_exhaust hfail url rt h1 h2 h3, ?_, rotationTrace_nodup idx pairs.length⟩
  rw [rotationTrace, List.length_map, List.length_range]

/-- Witness for C3: a pool of two pairs against an always-404 upstream. -/
theorem claim3_witness :
    performRequest oracle404 [kpA, kpB] "/sessions/s1/attempts" .json 0 2 =
      some (.null, 0, rotationTrace 0 2) ∧
    (rotationTrace 0 2).length = ([kpA, kpB] : List KeyPair).length ∧
    (rotationTrace 0 2).Nodup :=
  claim3_exhaustion_attempts_each_credential_once oracle404 [kpA, kpB] "/sessions/s1/attempts"
    .json 0 2 (fun u k kp => ⟨err404, rfl, rfl⟩) (by decide) (by decide) (by decide)

/-- C10: a fully exhausted call leaves the pool's active cursor exactly
where it started — the `N` rotations wrap once around — and the pool's
pair list is immutable throughout. -/
theorem claim10_exhausted_call_restores_cursor (oracle : Oracle) (pairs : List KeyPair)
    (url : String) (rt : RespType) (idx fuel : Nat) (hfail : alwaysHttpError oracle)
    (h1 : 0 < pairs.length) (h2 : idx < pairs.length) (h3 : pairs.length ≤ fuel) :
    (performRequest oracle pairs url rt idx fuel).map (fun r => r.2.1) = some idx := by
  rw [performRequest_exhaust hfail url rt h1 h2 h3, Option.map_some']

/-- Witness for C10: a pool of two pairs starting at cursor 1. -/
theorem claim10_witness :
    (performRequest oracle404 [kpA, kpB] "/media/m7" .stream 1 7).map (fun r => r.2.1) =
      some 1 :=
  claim10_exhausted_call_restores_cursor oracle404 [kpA, kpB] "/media/m7" .stream 1 7
    (fun u k kp => ⟨err404, rfl, rfl⟩) (by decide) (by decide) (by decide)

/-- C6: one rotation advances the cursor by exactly one position modulo
the pool size, two rotations advance it by two, and `N` rotations return
the pool to its original state. -/
theorem claim6_rotation_advances_and_cycles (st : VeriffAPIState)
    (h : st.currentIndex < st.apiKeyPairs.length) :
    (switchToNextKeyPair st).currentIndex =
      (st.currentIndex + 1) % st.apiKeyPairs.length ∧
    (switchToNextKeyPair (switchToNextKeyPair st)).currentIndex =
      (st.currentIndex + 2) % st.apiKeyPairs.length ∧
    switchToNextKeyPair^[st.apiKeyPairs.length] st = st := by
  refine ⟨rfl, ?_, ?_⟩
  · show ((st.currentIndex + 1) % st.apiKeyPairs.length + 1) % st.apiKeyPairs.length = _
    rw [Nat.mod_add_mod]
  · rw [switchToNextKeyPair_iterate st.apiKeyPairs.length st h, Nat.add_mod_right,
      Nat.mod_eq_of_lt h]

/-- Witness for C6: a two-pair pool with the cursor at 1. -/
theorem claim6_witness :
    (switchToNextKeyPair ⟨[kpA, kpB], 1⟩).currentIndex =
      ((⟨[kpA, kpB], 1⟩ : VeriffAPIState).currentIndex + 1) % 2 ∧
    (switchToNextKeyPair (switchToNextKeyPair ⟨[kpA, kpB], 1⟩)).currentIndex =
      ((⟨[kpA, kpB], 1⟩ : VeriffAPIState).currentIndex + 2) % 2 ∧
    switchToNextKeyPair^[2] (⟨[kpA, kpB], 1⟩ : VeriffAPIState) = ⟨[kpA, kpB], 1⟩ :=
  claim6_rotation_advances_and_cycles ⟨[kpA, kpB], 1⟩ (by decide)

/-- C7: the active index is in range initially (the constructor sets it
to 0), stays in range under rotation, denotes a valid pair before and
after any request, and any returned final cursor is again in range. -/
theorem claim7_active_index_invariant (oracle : Oracle) (pairs : List KeyPair)
    (url : String) (rt : RespType) (idx fuel : Nat) (v : JsValue) (fIdx : Nat)
    (tr : List Nat) (h1 : 0 < pairs.length) (h2 : idx < pairs.length)
    (h3 : performRequest oracle pairs url rt idx fuel = some (v, fIdx, tr)) :
    initialIndex < pairs.length ∧
    (getCurrentKeyPair pairs idx).isSome ∧
    (switchToNextKeyPair ⟨pairs, idx⟩).currentIndex < pairs.length ∧
    fIdx < pairs.length ∧
    (getCurrentKeyPair pairs fIdx).isSome := by
  have hf : fIdx < pairs.length :=
    performRequestAux_index_lt fuel pairs.length idx [] v fIdx tr h1 h2 h3
  refine ⟨h1, ?_, Nat.mod_lt _ h1, hf, ?_⟩
  · rw [getCurrentKeyPair, List.get?_eq_getElem?, List.getElem?_eq_getElem h2]; rfl
  · rw [getCurrentKeyPair, List.get?_eq_getElem?, List.getElem?_eq_getElem hf]; rfl

/-- Witness for C7: one 404-failing call on a singleton pool. -/
theorem claim7_witness :
    initialIndex < ([kpA] : List KeyPair).length ∧
    (getCurrentKeyPair [kpA] 0).isSome ∧
    (switchToNextKeyPair ⟨[kpA], 0⟩).currentIndex < ([kpA] : List KeyPair).length ∧
    0 < ([kpA] : List KeyPair).length ∧
    (getCurrentKeyPair [kpA] 0).isSome := by
  have h := claim7_active_index_invariant oracle404 [kpA] "/sessions/s1/person" .json 0 1
    .null 0 [0] (by decide) (by decide) rfl
  exact h

/-- C2: webhook verification accepts exactly when the claimed signature
is the HMAC-SHA256 hex digest of the canonicalized payload under the
shared secret of at least one configured pair, and the answer is
independent of the pool's active cursor. -/
theorem claim2_signature_valid_iff_any_pair_matches (st : VeriffAPIState)
    (signature : String) (payload : WebhookPayload) :
    (isSignatureValid st signature payload = true ↔
      ∃ kp ∈ st.apiKeyPairs,
        hmacSHA256Hex kp.sharedSecretKey (canonicalizePayload payload) = signature) ∧
    ∀ j, isSignatureValid ⟨st.apiKeyPairs, j⟩ signature payload =
      isSignatureValid st signature payload := by
  refine ⟨?_, fun j => rfl⟩
  rw [isSignatureValid, List.any_eq_true]
  constructor
  · rintro ⟨kp, hmem, hbeq⟩
    exact ⟨kp, hmem, by rwa [beq_iff_eq] at hbeq⟩
  · rintro ⟨kp, hmem, heq⟩
    exact ⟨kp, hmem, by rwa [beq_iff_eq]⟩

/-- C5: the aggregator returns all seven named fields unconditionally;
each field is the fulfilled value of its own sub-call, or `null` when
that sub-call failed, independent of every other sub-call's outcome —
including the case where every sub-call failed. -/
theorem claim5_aggregator_reports_every_field (d p m w i c a : JsOutcome JsValue) :
    getRelavantSessionData d p m w i c a =
      { sessionDecision := extractValue (settle d)
        personInfo := extractValue (settle p)
        mediaList := extractValue (settle m)
        watchlistScreening := extractValue (settle w)
        ineData := extractValue (settle i)
        curpData := extractValue (settle c)
        attempts := extractValue (settle a) } ∧
    getRelavantSessionData .thrown .thrown .thrown .thrown .thrown .thrown .thrown =
      { sessionDecision := .null, personInfo := .null, mediaList := .null
        watchlistScreening := .null, ineData := .null, curpData := .null
        attempts := .null } :=
  ⟨rfl, rfl⟩

/-- C9: with pool `[{k1,s1},{k2,s2}]` and the first pair active, a
session-decision fetch that gets HTTP 401 under `k1` and succeeds under
`k2` yields the fulfilled decision value after exactly two attempts, and
leaves the active cursor on `k2`. -/
theorem claim9_failover_after_401_scenario :
    getSessionDecision oracle401k1 [keyPair1, keyPair2] "sess-1" 0 2 =
      some (.value decisionValue, 1, [0, 1]) ∧
    getCurrentKeyPair [keyPair1, keyPair2] 1 = some keyPair2 :=
  ⟨rfl, rfl⟩

/-- C4 counterexample: on a fully exhausted rotation `performRequest`
returns `null`, and `getAttemptsForSession` dereferences
`response.verifications` on that `null`, so the operation throws past the
client boundary instead of returning a null result. -/
theorem claim4_attempts_throws_on_exhaustion :
    getAttemptsForSession oracle404 [kpA] "s1" 0 1 = some (.thrown, 0, [0]) ∧
    getPersonForSession oracle404 [kpA] "s1" 0 1 = some (.thrown, 0, [0]) :=
  ⟨rfl, rfl⟩

/-- C4 as amended: on exhaustion every public operation yields a
null/absent result without throwing, except `getAttemptsForSession` and
`getPersonForSession`, which throw (their promise rejects) because they
dereference a field of the `null` result. -/
theorem claim4_exhaustion_yields_null_except_two_dereferences (oracle : Oracle)
    (pairs : List KeyPair) (sid ver aid mid : String) (idx fuel : Nat)
    (hfail : alwaysHttpError oracle) (h1 : 0 < pairs.length) (h2 : idx < pairs.length)
    (h3 : pairs.length ≤ fuel) :
    getSessionDecision oracle pairs sid idx fuel =
      some (.value .null, idx, rotationTrace idx pairs.length) ∧
    getMediaForSession oracle pairs sid idx fuel =
      some (.value .null, idx, rotationTrace idx pairs.length) ∧
    getWatchlistScreeningForSession oracle pairs sid idx fuel =
      some (.value .null, idx, rotationTrace idx pairs.length) ∧
    getINEDataForSession oracle pairs sid ver idx fuel =
      some (.value .null, idx, rotationTrace idx pairs.length) ∧
    getCurpRegistryData oracle pairs sid ver idx fuel =
      some (.value .null, idx, rotationTrace idx pairs.length) ∧
    getMediaForAttempt oracle pairs aid idx fuel =
      some (.value .null, idx, rotationTrace idx pairs.length) ∧
    getAddressMedia oracle pairs aid idx fuel =
      some (.value .null, idx, rotationTrace idx pairs.length) ∧
    getMediaById oracle pairs mid idx fuel =
      some (.value .undefined, idx, rotationTrace idx pairs.length) ∧
    getAddressMediaById oracle pairs mid idx fuel =
      some (.value .undefined, idx, rotationTrace idx pairs.length) ∧
    getAttemptsForSession oracle pairs sid idx fuel =
      some (.thrown, idx, rotationTrace idx pairs.length) ∧
    getPersonForSession oracle pairs sid idx fuel =
      some (.thrown, idx, rotationTrace idx pairs.length) := by
  have hpr : ∀ u rt, performRequest oracle pairs u rt idx fuel =
      some (.null, idx, rotationTrace idx pairs.length) :=
    fun u rt => performRequest_exhaust hfail u rt h1 h2 h3
  refine ⟨?_, ?_, ?_, ?_, ?_, ?_, ?_, ?_, ?_, ?_, ?_⟩ <;>
    simp only [getSessionDecision, getMediaForSession, getWatchlistScreeningForSession,
      getINEDataForSession, getCurpRegistryData, getMediaForAttempt, getAddressMedia,
      getMediaById, getAddressMediaById, getAttemptsForSession, getPersonForSession,
      hpr, Option.map_some'] <;> rfl

/-- Witness for C4's amended theorem: a singleton pool against an
always-404 upstream. -/
theorem claim4_amended_witness :
    getSessionDecision oracle404 [kpA] "s" 0 1 =
      some (.value .null, 0, rotationTrace 0 1) ∧
    getMediaForSession oracle404 [kpA] "s" 0 1 =
      some (.value .null, 0, rotationTrace 0 1) ∧
    getWatchlistScreeningForSession oracle404 [kpA] "s" 0 1 =
      some (.value .null, 0, rotationTrace 0 1) ∧
    getINEDataForSession oracle404 [kpA] "s" "1.0.0" 0 1 =
      some (.value .null, 0, rotationTrace 0 1) ∧
    getCurpRegistryData oracle404 [kpA] "s" "1.0.0" 0 1 =
      some (.value .null, 0, rotationTrace 0 1) ∧
    getMediaForAttempt oracle404 [kpA] "a" 0 1 =
      some (.value .null, 0, rotationTrace 0 1) ∧
    getAddressMedia oracle404 [kpA] "a" 0 1 =
      some (.value .null, 0, rotationTrace 0 1) ∧
    getMediaById oracle404 [kpA] "m" 0 1 =
      some (.value .undefined, 0, rotationTrace 0 1) ∧
    getAddressMediaById oracle404 [kpA] "m" 0 1 =
      some (.value .undefined, 0, rotationTrace 0 1) ∧
    getAttemptsForSession oracle404 [kpA] "s" 0 1 =
      some (.thrown, 0, rotationTrace 0 1) ∧
    getPersonForSession oracle404 [kpA] "s" 0 1 =
      some (.thrown, 0, rotationTrace 0 1) :=
  claim4_exhaustion_yields_null_except_two_dereferences oracle404 [kpA] "s" "1.0.0" "a" "m"
    0 1 (fun u k kp => ⟨err404, rfl, rfl⟩) (by decide) (by decide) (by decide)

/-- C8 as amended: for a structured payload, verification agrees with
verification of the payload's compact JSON stringification delivered as a
string — but not as raw bytes: a `Buffer` has `typeof === 'object'` and is
itself JSON-stringified before digesting (see the counterexample). -/
theorem claim8_structured_matches_string_arrival (st : VeriffAPIState) (signature : String)
    (fields : List (String × JsValue)) :
    isSignatureValid st signature (.objPayload fields) =
      isSignatureValid st signature (.strPayload (stringifyObjTop fields)) :=
  rfl

set_option maxRecDepth 100000 in
/-- C8 counterexample: the empty structured payload stringifies to a
two-byte JSON text; a signature computed over exactly those bytes is
accepted for the structured payload but rejected when the same bytes
arrive as a raw `Buffer`, because the code JSON-stringifies the buffer
object itself — canonicalization is not arrival-mode independent. -/
theorem claim8_buffer_arrival_differs :
    isSignatureValid ⟨[kpA], 0⟩
      (hmacSHA256Hex "sec1" (canonicalizePayload (.objPayload []))) (.objPayload []) = true ∧
    isSignatureValid ⟨[kpA], 0⟩
      (hmacSHA256Hex "sec1" (canonicalizePayload (.objPayload [])))
      (.bufPayload (utf8Bytes (stringifyObjTop []))) = false := by
  constructor
  · decide
  · decide

end VeriffKyc
